import Mathlib

/-!
Verification of the Spark-AI-API browser-automation client.

This file gives a shallow embedding, in Lean, of the state-relevant parts of
the repository (`main.py`, `src/sparkai/ChromeManager.py`, `src/sparkai/SparkAI.py`,
`src/sparkai/auth_utils.py`) and proves or refutes the frozen claims about it.

Conventions used throughout:
* Selenium/driver interactions are modelled through explicit environment
  records: a `Bool` field says whether an element lookup or click succeeds
  (an exception is the `false` case), an `Option String` field is the text an
  extraction step produces (`none` when the lookup raises or finds nothing,
  `some ""` when it succeeds with empty text).
* Python `try/except` blocks are translated with `Except` or by branching on
  those environment fields at exactly the places the source catches.
* Side-effect-only configuration (Chrome option flags, window sizes, sleeps,
  screenshots) is not modelled: it never influences control flow or any value
  these claims are about.
-/

namespace Spark

/-! ## Python string primitives

`pyContains hay needle` is Python `needle in hay`; `pyStartsWith`, `pyLower`
and `pySplitNl` are Python `str.startswith`, `str.lower` and `str.split("\n")`.
They are defined over `List Char` to keep them kernel-computable. -/

def listPrefixB : List Char → List Char → Bool
  | [], _ => true
  | _ :: _, [] => false
  | a :: as, b :: bs => a = b && listPrefixB as bs

def listSubB (needle : List Char) : List Char → Bool
  | [] => listPrefixB needle []
  | c :: rest => listPrefixB needle (c :: rest) || listSubB needle rest

def pyContains (hay needle : String) : Bool :=
  listSubB needle.data hay.data

def pyStartsWith (s pre : String) : Bool :=
  listPrefixB pre.data s.data

def pyLower (s : String) : String :=
  String.mk (s.data.map Char.toLower)

def stripLeadingDots (s : String) : String :=
  String.mk (s.data.dropWhile (fun c => c = '.'))

def splitNlChars : List Char → List String
  | [] => [""]
  | c :: rest =>
    let r := splitNlChars rest
    if c = '\n' then "" :: r
    else
      match r with
      | [] => [String.mk [c]]
      | h :: t => String.mk (c :: h.data) :: t

def pySplitNl (s : String) : List String :=
  splitNlChars s.data

/-! ## C1 — the Sending step

Embedding of the message-typing block shared verbatim by
`ChromeManager.send_message_to_spark` (lines 803-835), `SparkAI._send_message`
(src/sparkai/SparkAI.py lines 498-543) and `SparkAI._send_message`
(main.py lines 419-464):

    message_box.clear()
    lines = message.split("\n")
    message_box.send_keys(lines[0])
    for line in lines[1:]:
        actions.key_down(Keys.SHIFT); actions.send_keys(Keys.ENTER)
        actions.key_up(Keys.SHIFT); actions.send_keys(line); actions.perform()
    send_button.click()
-/

inductive SendAct where
  | clearInput
  | typeText (s : String)
  | keyDownShift
  | pressEnter
  | keyUpShift
  | clickSendButton
deriving DecidableEq, Repr

/-- The Shift+Enter keystroke sequence issued for a soft line break. -/
def softNewlineSeq : List SendAct :=
  [SendAct.keyDownShift, SendAct.pressEnter, SendAct.keyUpShift]

/-- Action trace of the Sending step for a given message.  `lines.headD ""`
is Python `lines[0]`: `str.split` never returns an empty list (see
`pySplitNl_ne_nil`), so the default is never used. -/
def send_message_actions (message : String) : List SendAct :=
  let lines := pySplitNl message
  [SendAct.clearInput, SendAct.typeText (lines.headD "")]
    ++ lines.tail.flatMap (fun line => softNewlineSeq ++ [SendAct.typeText line])
    ++ [SendAct.clickSendButton]

/-- The texts entered into the input surface, in order. -/
def typed_lines (acts : List SendAct) : List String :=
  acts.filterMap (fun a =>
    match a with
    | SendAct.typeText s => some s
    | _ => none)

/-- Number of soft-newline keystroke sequences: `pressEnter` occurs exactly
once per Shift+Enter sequence and nowhere else. -/
def count_soft_newlines (acts : List SendAct) : Nat :=
  acts.count SendAct.pressEnter

/-! ## C2/C3 — the Extracting cascade

Embedding of `ChromeManager.get_response_from_spark`
(src/sparkai/ChromeManager.py lines 855-999).  After the driver and login
checks and the animation waits (which yield no text), the function attempts,
in the order fixed by the source:

1. lines 906-917: direct DOM extraction — `response_elements[-1].text.strip()`
   of the latest non-user `chat-message` content element, returned if
   non-empty (lookup errors caught locally at line 916);
2. lines 919-953: copy-button + system clipboard — click the last copy button,
   then `pyperclip.paste()`, returned if non-empty;
3. line 956: copy-button + in-page clipboard script —
   `self.get_clipboard_contents(driver)`.  `ChromeManager` has **no** such
   method (it is commented out at lines 1097-1171), so this call raises
   `AttributeError` unconditionally; the `except` at line 960 catches it;
4. lines 963-978: JavaScript DOM extraction — `execute_script` returning the
   `innerText` of the latest non-user message, returned if non-empty;
5. lines 982-993: last resort — `all_messages[-1].text.strip()` of the latest
   non-user message element, returned if non-empty;
6. line 999: the fixed extraction-failure message.

Exception routing from the source: an error in the *initial* copy-button
lookup (line 922) is caught by the `except` at line 979 and skips straight to
the last resort; an error in the second lookup (line 929), in the click
(line 943), or the unconditional `AttributeError` of step 3 are caught at
line 960 and fall through to the JavaScript DOM step. -/

inductive XStrategy where
  | domDirect
  | copySystemClipboard
  | copyInPageScript
  | jsDomExtraction
  | rawLastResort
deriving DecidableEq, Repr

/-- Position of a strategy in the order the source attempts them. -/
def strat_rank : XStrategy → Nat
  | XStrategy.domDirect => 0
  | XStrategy.copySystemClipboard => 1
  | XStrategy.copyInPageScript => 2
  | XStrategy.jsDomExtraction => 3
  | XStrategy.rawLastResort => 4

structure ExtractEnv where
  /-- `get_driver` returns a driver (line 870). -/
  driver_ok : Bool
  /-- `is_logged_in_to_spark` result (line 875). -/
  logged_in : Bool
  /-- stripped text of `response_elements[-1]` (line 912); `none` when the
  lookup raises or no element exists. -/
  dom_content_text : Option String
  /-- the `find_elements` for `initial_copy_buttons` at line 922 succeeds. -/
  initial_copy_lookup_ok : Bool
  /-- the `find_elements` for `copy_buttons` at line 929 succeeds. -/
  copy_lookup_ok : Bool
  /-- at least one copy button exists, so `use_button` is set (line 934-939). -/
  has_copy_button : Bool
  /-- `use_button.click()` at line 943 succeeds. -/
  click_ok : Bool
  /-- `pyperclip.paste()` result (line 948); `none` when pyperclip raises. -/
  system_clipboard : Option String
  /-- `execute_script` innerText result (line 966); `none` when it raises. -/
  js_dom_text : Option String
  /-- stripped text of `all_messages[-1]` (line 988); `none` when the lookup
  raises or no element exists. -/
  raw_last_text : Option String
deriving DecidableEq, Repr

/-- What a strategy step yields: `some t` exactly when the step ran without
raising and produced non-empty text (the source guards every return with a
non-emptiness test such as `if response_text:`). -/
def strat_yield : Option String → Option String
  | some t => if t = "" then none else some t
  | none => none

/-- Line 999: the value returned when every strategy came back empty. -/
def extraction_failure_message : String :=
  "Could not retrieve response from Spark. Please check the browser window directly."

/-- Lines 982-999: last-resort raw text, else the failure message. -/
def last_resort_step (env : ExtractEnv) (tr : List XStrategy) :
    Option String × List XStrategy :=
  match strat_yield env.raw_last_text with
  | some t => (some t, tr ++ [XStrategy.rawLastResort])
  | none => (some extraction_failure_message, tr ++ [XStrategy.rawLastResort])

/-- Lines 963-978: JavaScript DOM extraction, else fall to the last resort. -/
def js_dom_step (env : ExtractEnv) (tr : List XStrategy) :
    Option String × List XStrategy :=
  match strat_yield env.js_dom_text with
  | some t => (some t, tr ++ [XStrategy.jsDomExtraction])
  | none => last_resort_step env (tr ++ [XStrategy.jsDomExtraction])

/-- `ChromeManager.get_response_from_spark`: result paired with the list of
strategies attempted, in order.  `none` is Python `None` (no driver / not
logged in). -/
def get_response_from_spark (env : ExtractEnv) : Option String × List XStrategy :=
  if env.driver_ok = false then (none, [])
  else if env.logged_in = false then (none, [])
  else
    match strat_yield env.dom_content_text with
    | some t => (some t, [XStrategy.domDirect])
    | none =>
      if env.initial_copy_lookup_ok = false then
        -- line 922 raised: except at line 979, straight to the last resort
        last_resort_step env [XStrategy.domDirect]
      else if env.copy_lookup_ok = false then
        -- line 929 raised: except at line 960, then the JS DOM step
        js_dom_step env [XStrategy.domDirect]
      else if env.has_copy_button = false then
        -- `use_button` is None: the clipboard block is skipped (line 941)
        js_dom_step env [XStrategy.domDirect]
      else if env.click_ok = false then
        -- the click raised before any clipboard read: except at line 960
        js_dom_step env [XStrategy.domDirect, XStrategy.copySystemClipboard]
      else
        match strat_yield env.system_clipboard with
        | some t => (some t, [XStrategy.domDirect, XStrategy.copySystemClipboard])
        | none =>
          -- empty or failed paste reaches line 956, whose call of the absent
          -- method `get_clipboard_contents` raises AttributeError always
          js_dom_step env
            [XStrategy.domDirect, XStrategy.copySystemClipboard,
             XStrategy.copyInPageScript]

/-- All four text-producing steps came back empty (or raised). -/
def all_strategies_empty (env : ExtractEnv) : Bool :=
  (strat_yield env.dom_content_text).isNone
    && (strat_yield env.system_clipboard).isNone
    && (strat_yield env.js_dom_text).isNone
    && (strat_yield env.raw_last_text).isNone

/-- Concrete environment refuting the claimed cascade order: the system
clipboard holds non-empty text, yet the DOM already has (different) non-empty
text. -/
def xenv_counterexample : ExtractEnv :=
  { driver_ok := true
    logged_in := true
    dom_content_text := some "DOM_TEXT"
    initial_copy_lookup_ok := true
    copy_lookup_ok := true
    has_copy_button := true
    click_ok := true
    system_clipboard := some "CLIP_TEXT"
    js_dom_text := some ""
    raw_last_text := some "" }

/-- Concrete environment in which every strategy yields empty text. -/
def xenv_all_empty : ExtractEnv :=
  { driver_ok := true
    logged_in := true
    dom_content_text := some ""
    initial_copy_lookup_ok := true
    copy_lookup_ok := true
    has_copy_button := true
    click_ok := true
    system_clipboard := none
    js_dom_text := some ""
    raw_last_text := none }

/-! ## C4/C5 — the session pool

Embedding of `ChromeManager.get_driver` (src/sparkai/ChromeManager.py lines
257-307) and the registration behaviour of `ChromeManager.setup_chrome`
(lines 60-245).  A driver object is a `Handle` carrying a creation serial
number `hid` (object identity) and its observed responsiveness `alive`
(`is_driver_alive`, lines 247-254: `driver.current_url` succeeds).
`self.drivers` is the association list `drivers`; `next_handle_id` is the
supply of fresh serial numbers, so a handle constructed by `setup_chrome` is
a different object from every handle already in a well-formed pool.

Chrome option construction, profile directories, zombie killing and the
2-second sleeps in the retry loop are configuration/timing only and are not
modelled; the headless fallback at lines 227-230 changes options for the next
attempt, not the registration logic. -/

structure Handle where
  hid : Nat
  alive : Bool
deriving DecidableEq, Repr

structure Pool where
  drivers : List (String × Handle)
  next_handle_id : Nat
deriving DecidableEq, Repr

/-- Python `self.drivers[browser_id]` / `browser_id in self.drivers`. -/
def lookupDriver : List (String × Handle) → String → Option Handle
  | [], _ => none
  | (k, h) :: rest, bid => if k = bid then some h else lookupDriver rest bid

/-- Python `del self.drivers[browser_id]` (line 302). -/
def removeDriver : List (String × Handle) → String → List (String × Handle)
  | [], _ => []
  | (k, h) :: rest, bid =>
    if k = bid then removeDriver rest bid else (k, h) :: removeDriver rest bid

/-- Constructing a fresh driver object and storing it under `bid`
(`self.drivers[browser_id] = driver`, lines 118/222). -/
def allocDriver (p : Pool) (bid : String) : Handle × Pool :=
  let h : Handle := { hid := p.next_handle_id, alive := true }
  (h, { drivers := (bid, h) :: removeDriver p.drivers bid
        next_handle_id := p.next_handle_id + 1 })

/-- Environment for driver construction: whether attaching to an existing
remote-debugging Chrome succeeds (lines 98-124), and the success of each
`webdriver.Chrome(...)` construction attempt in the retry loop (lines
207-243, `max_attempts = 3`). -/
structure ChromeEnv where
  attach_ok : Bool
  launch_attempts : List Bool
deriving DecidableEq, Repr

/-- `ChromeManager.setup_chrome`.  Line 91: reuse a live stored driver unless
`force_new`; lines 98-124: attach to an existing browser; lines 207-245:
up to 3 construction attempts, then
`raise Exception("Failed to initialize Chrome driver after 3 attempts")`. -/
def setup_chrome (p : Pool) (bid : String) (remote_debugging force_new : Bool)
    (env : ChromeEnv) : Except String (Handle × Pool) :=
  match lookupDriver p.drivers bid with
  | some h =>
    if h.alive = true && force_new = false then Except.ok (h, p)
    else if force_new = false && remote_debugging = true && env.attach_ok = true then
      Except.ok (allocDriver p bid)
    else if (env.launch_attempts.take 3).any id = true then
      Except.ok (allocDriver p bid)
    else Except.error "Failed to initialize Chrome driver after 3 attempts"
  | none =>
    if force_new = false && remote_debugging = true && env.attach_ok = true then
      Except.ok (allocDriver p bid)
    else if (env.launch_attempts.take 3).any id = true then
      Except.ok (allocDriver p bid)
    else Except.error "Failed to initialize Chrome driver after 3 attempts"

/-- `ChromeManager.get_driver` (lines 257-307): reuse a responsive stored
driver; otherwise quit and delete the invalid one and call `setup_chrome`. -/
def get_driver (p : Pool) (bid : String) (remote_debugging force_new : Bool)
    (env : ChromeEnv) : Except String (Handle × Pool) :=
  match lookupDriver p.drivers bid with
  | some h =>
    if h.alive = true then Except.ok (h, p)
    else
      setup_chrome { p with drivers := removeDriver p.drivers bid } bid
        remote_debugging force_new env
  | none => setup_chrome p bid remote_debugging force_new env

/-- Pool well-formedness: every stored handle was allocated before the
current fresh serial number. -/
def Pool.wf (p : Pool) : Prop :=
  ∀ kv ∈ p.drivers, (Prod.snd kv).hid < p.next_handle_id

instance (p : Pool) : Decidable p.wf := by
  unfold Pool.wf
  infer_instance

/-! ## C6 — cookie loading

Embedding of the filter in `ChromeManager.load_cookies`
(src/sparkai/ChromeManager.py lines 357-383; `SparkAI._load_cookies` in
main.py lines 341-378 is identical):

    for cookie in cookies:
        if "domain" in cookie:
            if "expiry" in cookie: cookie["expiry"] = int(cookie["expiry"])
            if ("sameSite" in cookie and cookie["sameSite"] == "None"
                    and not cookie.get("secure", False)):
                continue
            try:
                domain = cookie["domain"].lstrip(".")
                if domain in driver.current_url:
                    driver.add_cookie(cookie)
            except Exception as e: ...

`add_ok` says whether `driver.add_cookie` succeeds for a given cookie (its
failure is caught and only skips that cookie).  The `int(...)` coercion of
`expiry` only normalises a field and plays no part in the filtering. -/

structure Cookie where
  name : String
  value : String
  domain : Option String
  path : Option String
  expiry : Option Int
  secure : Option Bool
  sameSite : Option String
deriving DecidableEq, Repr

/-- The cookies that `load_cookies` actually adds to the browser session. -/
def added_cookies (cookies : List Cookie) (current_url : String)
    (add_ok : Cookie → Bool) : List Cookie :=
  cookies.filter (fun c =>
    match c.domain with
    | none => false
    | some d =>
      if c.sameSite = some "None" ∧ c.secure.getD false = false then false
      else if pyContains current_url (stripLeadingDots d) = true then add_ok c
      else false)

/-! ## C7 — the broken fallback extractor in src/sparkai/SparkAI.py

Embedding of `SparkAI._get_llm_response_from_copy_button`
(src/sparkai/SparkAI.py lines 352-496).  The whole body is one `try` whose
`except` at line 486 returns `f"Error retrieving response: {str(e)}"`.
The body has no `return` statement before the loop
`while not_copied:` at line 444, and evaluating that guard looks up the name
`not_copied` in the function scope.  `fallback_assigned_names` lists every
name that occurs as an assignment target anywhere in the function body
(lines 360-482), which is the complete set of local names the guard lookup
could ever see; `not_copied` is not among them, so the lookup raises
`NameError` (Python renders it with quotes around the name; the quotes are
omitted here). -/

def fallback_assigned_names : List String :=
  ["pyperclip", "copy_button_xpath", "orig_count", "message_processing",
   "loading_elements", "thinking_elements", "max_wait_time", "start_time",
   "current_buttons", "current_count", "last_message", "content_text",
   "new_buttons", "new_count", "new_button", "clipboard_text"]

def name_error_msg : String :=
  "name not_copied is not defined"

structure FallbackEnv where
  /-- every driver interaction of lines 363-441 that is not wrapped in an
  inner `try` (the `find_elements` at lines 365, 409, 418 and 440) succeeds;
  the inner `try` blocks at lines 372-386, 393-401 and 417-427 swallow their
  own errors and need no flag. -/
  driver_ok : Bool
  /-- message of the exception raised when `driver_ok` is false. -/
  err_msg : String
  /-- clipboard text the loop body would read if it were ever reached. -/
  clipboard_text : String
deriving DecidableEq, Repr

/-- The `try` body, lines 363-484: waiting and monitoring produce no return;
then the `while not_copied:` guard resolves the name `not_copied`. The
then-branch models the clipboard-reading loop body (lines 445-484), which is
reachable only if the guard name resolved. -/
def fallback_try_body (env : FallbackEnv) : Except String String :=
  if env.driver_ok = false then Except.error env.err_msg
  else if ("not_copied" ∈ fallback_assigned_names) = true then
    Except.ok env.clipboard_text
  else Except.error name_error_msg

/-- `SparkAI._get_llm_response_from_copy_button` (the src/sparkai version). -/
def get_llm_response_from_copy_button (env : FallbackEnv) : String :=
  match fallback_try_body env with
  | Except.ok s => s
  | Except.error e => "Error retrieving response: " ++ e

/-! ## C8/C10 — the authentication flows

Event alphabet shared by the embeddings of `auth_utils.login_to_spark`,
`auth_utils.handle_duo_authentication`, `ChromeManager.login_to_spark` and
`SparkAI._auto_login` / `SparkAI._handle_duo_authentication` of main.py.
`typeText field text` is `send_keys` into a page element; `log` is a
`debug_print` call (visible only in debug mode); `errOut` is console output
(`sys.stderr.write` / `print`); `promptManual` is a blocking `input(...)`
asking the operator to intervene. -/

inductive AuthEvent where
  | navigate (url : String)
  | typeText (field : String) (text : String)
  | click (what : String)
  | jsClick (what : String)
  | log (msg : String)
  | errOut (msg : String)
  | promptManual (msg : String)
  | screenshot
deriving DecidableEq, Repr

def isPromptManual : AuthEvent → Bool
  | AuthEvent.promptManual _ => true
  | _ => false

/-- Observable log output of a trace: `debug_print` prints
`f"[DEBUG]: {message}"` only in debug mode (src/sparkai/debug_print.py);
stderr/console writes always appear; typing, clicking, navigation and
screenshots produce no log output. -/
def log_output (debug_mode : Bool) : List AuthEvent → List String
  | [] => []
  | AuthEvent.log m :: evs =>
    if debug_mode = true then ("[DEBUG]: " ++ m) :: log_output debug_mode evs
    else log_output debug_mode evs
  | AuthEvent.errOut m :: evs => m :: log_output debug_mode evs
  | AuthEvent.promptManual m :: evs => m :: log_output debug_mode evs
  | _ :: evs => log_output debug_mode evs

/-- Environment of `auth_utils.handle_duo_authentication` (lines 157-258).
`body_raises` covers an unexpected exception anywhere in the body, caught by
the final `except` at line 257 (modelled as raising before other events). -/
structure DuoEnv where
  body_raises : Bool
  body_err : String
  /-- the `authenticator-verify-list` element is present or appears within
  3 seconds (lines 170-185). -/
  present : Bool
  /-- a "Get a push notification" button exists (lines 191-198). -/
  push_found : Bool
  /-- some other authentication option exists (lines 202-209). -/
  alt_found : Bool
  /-- the chat prompt appears within the budget after the choice (222-226). -/
  prompt_after : Bool
  /-- a "Choose another way" link exists (lines 233-237). -/
  switch_found : Bool
  /-- at least two alternate methods exist, so `alt_auth_buttons[1]` is
  clickable (lines 242-248). -/
  alt2_present : Bool
  /-- the prompt appears after the secondary method (lines 251-253); when it
  does not, the `WebDriverWait` raises and the `except` at line 254 logs. -/
  prompt_after_alt : Bool
  alt_err : String
deriving DecidableEq, Repr

/-- `auth_utils.handle_duo_authentication`: always returns normally (its body
is wrapped in `try`/`except` at lines 168/257); emits this event trace. -/
def handle_duo_authentication (env : DuoEnv) : List AuthEvent :=
  if env.body_raises = true then
    [AuthEvent.errOut ("Error during authentication: " ++ env.body_err)]
  else if env.present = false then []
  else
    [AuthEvent.log "Duo authentication detected, attempting to handle..."]
      ++ (if env.push_found = true then
            [AuthEvent.click "push-notification",
             AuthEvent.log "Push notification requested, check your device"]
          else if env.alt_found = true then
            [AuthEvent.click "alternative-method",
             AuthEvent.log "Alternative authentication method selected"]
          else
            [AuthEvent.errOut
               "No authentication methods found. Manual intervention may be required.",
             AuthEvent.screenshot])
      ++ (if env.push_found = false && env.alt_found = false then []
          -- line 219: early return when no method was found
          else if env.prompt_after = true then
            [AuthEvent.log "Authentication completed successfully"]
          else
            [AuthEvent.errOut "Authentication timed out waiting for completion."]
              ++ (if env.switch_found = true then
                    [AuthEvent.click "choose-another-way",
                     AuthEvent.log "Trying alternative authentication method"]
                      ++ (if env.alt2_present = true then
                            [AuthEvent.click "secondary-method",
                             AuthEvent.log "Selected secondary authentication method"]
                              ++ (if env.prompt_after_alt = true then []
                                  else [AuthEvent.log
                                     ("Error trying alternative authentication: "
                                       ++ env.alt_err)])
                          else [])
                  else []))

/-- Environment of `auth_utils.login_to_spark` (lines 21-155).
`std_stage` abstracts how far the standard Okta sequence of lines 56-94 gets
before one of its element waits raises: `0` — the `identifier` lookup raises
(nothing typed); `1` — the username was typed but the Next click or the
`credentials.passcode` lookup raises; `2` (or more) — username and password
were both typed and both clicks succeeded, so `handle_duo_authentication`
runs.  Finer interleavings only shorten the trace and are not distinguished
by any claim. -/
structure AuthEnv where
  /-- `driver.get(...)` at line 43 succeeds. -/
  navigate_ok : Bool
  navigate_err : String
  /-- the chat prompt is already present within 5 s (lines 46-53). -/
  already_logged_in : Bool
  std_stage : Nat
  std_form_err : String
  duo : DuoEnv
  /-- the generic fallback (lines 98-126) finds a username/email field. -/
  generic_user_found : Bool
  /-- it finds a password field. -/
  generic_pass_found : Bool
  /-- it finds a login/submit button. -/
  generic_button_found : Bool
  /-- the chat interface loads within the budget at lines 128-133. -/
  final_prompt : Bool
  final_err : String
  /-- `driver.current_url` in the failure handler (line 139) succeeds;
  its failure is swallowed by the bare `except: pass` at lines 152-153. -/
  url_read_ok : Bool
  url_after : String
  /-- `driver.find_elements(By.NAME, "prompt")` at line 149 is non-empty. -/
  prompt_in_dom : Bool
deriving DecidableEq, Repr

/-- The generic login-form fallback, lines 98-126 (its own `except` at
line 124 swallows every error of the block). -/
def generic_attempt (env : AuthEnv) (username password : String) : List AuthEvent :=
  (if env.generic_user_found = true then
     [AuthEvent.typeText "generic-username" username] else [])
    ++ (if env.generic_pass_found = true then
          [AuthEvent.typeText "password" password] else [])
    ++ (if env.generic_button_found = true then
          [AuthEvent.jsClick "generic-login",
           AuthEvent.log "Generic login button clicked via JavaScript"] else [])

/-- The body of `auth_utils.login_to_spark` without the outer `except` of
lines 134-155: `Except.error` marks the points where an exception leaves the
`try` of line 41. -/
def login_to_spark_inner (env : AuthEnv) (username password : String) :
    Except String Bool × List AuthEvent :=
  if env.navigate_ok = false then (Except.error env.navigate_err, [])
  else
    let tr0 := [AuthEvent.navigate "https://spark.unimelb.edu.au/securechat"]
    if env.already_logged_in = true then (Except.ok true, tr0)
    else
      let trStd :=
        if env.std_stage = 0 then
          [AuthEvent.log ("Standard login form not found: " ++ env.std_form_err
             ++ ". Trying generic login form detection...")]
            ++ generic_attempt env username password
        else if env.std_stage = 1 then
          [AuthEvent.typeText "identifier" username,
           AuthEvent.jsClick "Next",
           AuthEvent.log "Next button clicked via JavaScript",
           AuthEvent.log ("Standard login form not found: " ++ env.std_form_err
             ++ ". Trying generic login form detection...")]
            ++ generic_attempt env username password
        else
          [AuthEvent.typeText "identifier" username,
           AuthEvent.jsClick "Next",
           AuthEvent.log "Next button clicked via JavaScript",
           AuthEvent.typeText "credentials.passcode" password,
           AuthEvent.jsClick "Verify",
           AuthEvent.log "Verify button clicked via JavaScript"]
            ++ handle_duo_authentication env.duo
      if env.final_prompt = true then
        (Except.ok true,
         tr0 ++ trStd ++ [AuthEvent.log "Login successful - chat interface loaded"])
      else (Except.error env.final_err, tr0 ++ trStd)

/-- The failure handler of `auth_utils.login_to_spark`, lines 134-155. -/
def login_failure_handler (env : AuthEnv) (emsg : String) (tr : List AuthEvent) :
    Bool × List AuthEvent :=
  let tr := tr ++ [AuthEvent.errOut ("Login failed: " ++ emsg)]
  if env.url_read_ok = true
      && pyContains env.url_after "spark.unimelb.edu.au/securechat" = true
      && env.prompt_in_dom = true then
    (true, tr ++ [AuthEvent.log "Login appears successful despite errors"])
  else (false, tr)

/-- `auth_utils.login_to_spark`: the body with the outer handler attached;
always returns a boolean. -/
def login_to_spark (env : AuthEnv) (username password : String) :
    Bool × List AuthEvent :=
  match login_to_spark_inner env username password with
  | (Except.ok b, tr) => (b, tr)
  | (Except.error e, tr) => login_failure_handler env e tr

/-- `ChromeManager.login_to_spark` (lines 443-471): the wrapper that fetches
a driver, logs its progress — including the username, at line 468
`debug_print(f"Performing login with username={username}")` — and delegates
to `auth_utils.login_to_spark`. -/
def chrome_login_to_spark (env : AuthEnv) (username password : String) :
    Bool × List AuthEvent :=
  let r := login_to_spark env username password
  (r.1,
   [AuthEvent.log "Getting driver for login with headless=False",
    AuthEvent.log ("Performing login with username=" ++ username)]
     ++ r.2
     ++ [AuthEvent.log ("Login result: " ++ (if r.1 = true then "True" else "False"))])

/-- `ChromeManager.save_cookies` (lines 388-416) writes exactly
`json.dump(driver.get_cookies(), f)`: the saved file content is the browser
cookie list and nothing else.  `login_then_save_cookie_file` is the composite
"log in, then save cookies" flow; its second component is the cookie-file
content. -/
def login_then_save_cookie_file (env : AuthEnv) (username password : String)
    (browser_cookies : List Cookie) : (Bool × List AuthEvent) × List Cookie :=
  (chrome_login_to_spark env username password, browser_cookies)

/-- Environment of `SparkAI._handle_duo_authentication` in main.py
(lines 284-339).  Unlike the auth_utils version, this one blocks on
`input(...)` when no method is found, and, in its `except` handler, when the
page source still shows the authenticator list. -/
structure DuoMainEnv where
  body_raises : Bool
  body_err : String
  /-- `"authenticator-verify-list" in self.driver.page_source` (line 336). -/
  list_in_page : Bool
  /-- the authenticator list is present or appears within 3 s (289-305). -/
  present : Bool
  push_found : Bool
  alt_found : Bool
deriving DecidableEq, Repr

/-- `SparkAI._handle_duo_authentication` (main.py lines 284-339). -/
def main_handle_duo_authentication (env : DuoMainEnv) : List AuthEvent :=
  if env.body_raises = true then
    [AuthEvent.errOut ("Error during authentication: " ++ env.body_err)]
      ++ (if env.list_in_page = true then
            [AuthEvent.promptManual
               "Please complete authentication manually, then press Enter to continue..."]
          else [])
  else if env.present = false then []
  else if env.push_found = true then [AuthEvent.click "push-notification"]
  else if env.alt_found = true then [AuthEvent.click "alternative-method"]
  else
    [AuthEvent.errOut
       "No authentication methods found. Manual intervention may be required.",
     AuthEvent.promptManual "Press Enter after completing authentication..."]

/-- Environment of `SparkAI._auto_login` in main.py (lines 211-282);
`std_stage` follows the same convention as `AuthEnv.std_stage`. -/
structure MainAuthEnv where
  /-- the chat prompt is already present within 2 s (lines 227-235). -/
  already_logged_in : Bool
  std_stage : Nat
  std_err : String
  duo : DuoMainEnv
  /-- the chat interface loads within 32 s at lines 274-276. -/
  final_prompt : Bool
  final_err : String
deriving DecidableEq, Repr

/-- The body of main.py `SparkAI._auto_login` without its outer `except`
(lines 279-282): `Except.error` marks an exception leaving the `try`. -/
def auto_login_inner (env : MainAuthEnv) (username password : String) :
    Except String Bool × List AuthEvent :=
  if env.already_logged_in = true then (Except.ok true, [])
  else if env.std_stage = 0 then (Except.error env.std_err, [])
  else if env.std_stage = 1 then
    (Except.error env.std_err,
     [AuthEvent.typeText "identifier" username, AuthEvent.click "Next"])
  else
    let tr :=
      [AuthEvent.typeText "identifier" username, AuthEvent.click "Next",
       AuthEvent.typeText "credentials.passcode" password, AuthEvent.click "Verify"]
        ++ main_handle_duo_authentication env.duo
    if env.final_prompt = true then (Except.ok true, tr)
    else (Except.error env.final_err, tr)

/-- main.py `SparkAI._auto_login`: every exception of the body lands in the
handler of lines 279-282, which prints, blocks on
`input("Please login manually, then press Enter to continue...")` and then
returns `False`. -/
def auto_login (env : MainAuthEnv) (username password : String) :
    Bool × List AuthEvent :=
  match auto_login_inner env username password with
  | (Except.ok b, tr) => (b, tr)
  | (Except.error e, tr) =>
    (false,
     tr ++ [AuthEvent.errOut ("Login failed: " ++ e),
            AuthEvent.promptManual
              "Please login manually, then press Enter to continue..."])

/-! ## C9 — the pre-send authentication check

Embedding of `SparkAI.send_message` (src/sparkai/SparkAI.py lines 280-349)
together with the guard of `ChromeManager.send_message_to_spark` (lines
765-853).  The trace records, in program order: the URL inspection, any
navigation and re-authentication it triggers, the auto-login retry and
login-state check inside `send_message_to_spark`, and the typing/submission
events.  When `send_message_to_spark` returns `False`, line 330 raises and
the handler at line 342 falls back to `SparkAI._send_message`, which types
the message only if the prompt element (the chat-surface marker) is found
within 8 s — otherwise its own `except` swallows the failure and nothing is
typed.  Element interactions after the prompt box was found are modelled as
succeeding: a failure there could only truncate the trace after the guard
events this claim is about. -/

inductive SendEvent where
  | urlChecked (url : String)
  | navigate (url : String)
  | reauth
  | manualLoginPrompt
  | loginCheckPassed
  | loginCheckFailed
  | typeMessage (msg : String)
  | submit
deriving DecidableEq, Repr

/-- `SparkAI._determine_sparkai_url` (src/sparkai/SparkAI.py lines 257-266). -/
def spark_chat_url (chat_id : Option String) : String :=
  match chat_id with
  | some cid => "https://spark.unimelb.edu.au/securechat/threads/" ++ cid
  | none => "https://spark.unimelb.edu.au/securechat"

/-- The login/SSO-surface test of `SparkAI.send_message` lines 300-304:
the lowercased URL contains "login", "authorize", "sso" or "authenticate",
or the URL does not start with the Spark origin. -/
def needs_reauth (url : String) : Bool :=
  pyContains (pyLower url) "login" || pyContains (pyLower url) "authorize"
    || pyContains (pyLower url) "sso" || pyContains (pyLower url) "authenticate"
    || !(pyStartsWith url "https://spark.unimelb.edu.au")

structure SendEnv where
  /-- `get_driver` and `driver.current_url` at lines 296-297 succeed; their
  failure is swallowed at line 320 and skips the whole check. -/
  url_read_ok : Bool
  current_url : String
  chat_id : Option String
  /-- `self.username and self.password` are set (line 313). -/
  have_credentials : Bool
  /-- `SPARKAI_USERNAME`/`SPARKAI_PASSWORD` are set, so
  `send_message_to_spark` retries auto-login itself (lines 789-795). -/
  env_credentials : Bool
  /-- `is_logged_in_to_spark` result at line 797. -/
  logged_in_check : Bool
  /-- message box found, typing and send-button click succeed (803-850). -/
  send_steps_ok : Bool
  /-- the fallback `_send_message` finds the prompt element (SparkAI.py
  lines 515-517). -/
  prompt_box_found : Bool
deriving DecidableEq, Repr

/-- `ChromeManager.send_message_to_spark` after the driver fetch: auto-login
retry, login-state gate, then the Sending step (whose keystroke breakdown is
`send_message_actions`). -/
def send_message_to_spark_part (env : SendEnv) (message : String) :
    Bool × List SendEvent :=
  let auto := if env.env_credentials = true then [SendEvent.reauth] else []
  if env.logged_in_check = true then
    if env.send_steps_ok = true then
      (true, auto ++ [SendEvent.loginCheckPassed,
                      SendEvent.typeMessage message, SendEvent.submit])
    else (false, auto ++ [SendEvent.loginCheckPassed])
  else (false, auto ++ [SendEvent.loginCheckFailed])

/-- The fallback `SparkAI._send_message` (src/sparkai/SparkAI.py 498-562). -/
def fallback_send (env : SendEnv) (message : String) : List SendEvent :=
  if env.prompt_box_found = true then
    [SendEvent.typeMessage message, SendEvent.submit]
  else []

/-- `SparkAI.send_message`: the pre-send URL check with re-authentication,
then `send_message_to_spark`, then — on failure — the fallback sender.
The boolean is `True` exactly when `send_message_to_spark` succeeded. -/
def send_message (env : SendEnv) (message : String) : Bool × List SendEvent :=
  let pre :=
    if env.url_read_ok = true then
      if needs_reauth env.current_url = true then
        [SendEvent.urlChecked env.current_url,
         SendEvent.navigate (spark_chat_url env.chat_id)]
          ++ (if env.have_credentials = true then [SendEvent.reauth]
              else [SendEvent.manualLoginPrompt])
      else [SendEvent.urlChecked env.current_url]
    else []
  let r := send_message_to_spark_part env message
  if r.1 = true then (true, pre ++ r.2)
  else (false, pre ++ r.2 ++ fallback_send env message)

/-! ## Concrete environments used by witnesses and counterexamples -/

def pool_dead_witness : Pool :=
  { drivers := [("spark-ai-chat", { hid := 0, alive := false })]
    next_handle_id := 1 }

def chrome_env_attach : ChromeEnv :=
  { attach_ok := true, launch_attempts := [] }

def pool_live_witness : Pool :=
  { drivers := [("spark-ai-chat", { hid := 0, alive := true })]
    next_handle_id := 1 }

def cookie_witness : Cookie :=
  { name := "session"
    value := "abc"
    domain := some ".unimelb.edu.au"
    path := some "/"
    expiry := some 100
    secure := some true
    sameSite := some "None" }

def fallback_env_witness : FallbackEnv :=
  { driver_ok := true, err_msg := "", clipboard_text := "THE REAL ANSWER" }

def duo_env_trivial : DuoEnv :=
  { body_raises := false, body_err := "", present := false, push_found := false
    alt_found := false, prompt_after := false, switch_found := false
    alt2_present := false, prompt_after_alt := false, alt_err := "" }

def auth_env_happy : AuthEnv :=
  { navigate_ok := true, navigate_err := "", already_logged_in := true
    std_stage := 0, std_form_err := "", duo := duo_env_trivial
    generic_user_found := false, generic_pass_found := false
    generic_button_found := false, final_prompt := true, final_err := ""
    url_read_ok := true, url_after := "", prompt_in_dom := false }

def send_env_witness : SendEnv :=
  { url_read_ok := true
    current_url := "https://sso.unimelb.edu.au/login?next=securechat"
    chat_id := none
    have_credentials := true
    env_credentials := false
    logged_in_check := true
    send_steps_ok := true
    prompt_box_found := false }

def auth_env_fail : AuthEnv :=
  { navigate_ok := true, navigate_err := "", already_logged_in := false
    std_stage := 0, std_form_err := "TimeoutException", duo := duo_env_trivial
    generic_user_found := false, generic_pass_found := false
    generic_button_found := false, final_prompt := false
    final_err := "TimeoutException"
    url_read_ok := true, url_after := "https://sso.unimelb.edu.au/login"
    prompt_in_dom := false }

def duo_main_trivial : DuoMainEnv :=
  { body_raises := false, body_err := "", list_in_page := false
    present := false, push_found := false, alt_found := false }

def main_auth_env_fail : MainAuthEnv :=
  { already_logged_in := false, std_stage := 0, std_err := "TimeoutException"
    duo := duo_main_trivial, final_prompt := false, final_err := "" }

/-! ## Helper lemmas -/

theorem splitNlChars_ne_nil (cs : List Char) : splitNlChars cs ≠ [] := by
  induction cs with
  | nil => simp [splitNlChars]
  | cons c rest ih =>
    by_cases hc : c = '\n'
    · simp [splitNlChars, hc]
    · cases h : splitNlChars rest with
      | nil => exact absurd h ih
      | cons a t => simp [splitNlChars, hc, h]

theorem pySplitNl_ne_nil (s : String) : pySplitNl s ≠ [] :=
  splitNlChars_ne_nil s.data

theorem headD_cons_tail (l : List String) (h : l ≠ []) : l.headD "" :: l.tail = l := by
  cases l with
  | nil => exact absurd rfl h
  | cons a t => rfl

theorem typed_lines_append (a b : List SendAct) :
    typed_lines (a ++ b) = typed_lines a ++ typed_lines b := by
  simp [typed_lines]

theorem typed_lines_soft_flatMap (ls : List String) :
    typed_lines
      (ls.flatMap (fun line => softNewlineSeq ++ [SendAct.typeText line])) = ls := by
  induction ls with
  | nil => simp [typed_lines]
  | cons l t ih =>
    simp only [List.flatMap_cons, typed_lines_append, ih]
    simp [typed_lines, softNewlineSeq]

theorem count_pressEnter_soft_flatMap (ls : List String) :
    List.count SendAct.pressEnter
      (ls.flatMap (fun line => softNewlineSeq ++ [SendAct.typeText line]))
      = ls.length := by
  induction ls with
  | nil => simp
  | cons l t ih =>
    rw [List.flatMap_cons, List.count_append, List.count_append, ih]
    simp [softNewlineSeq, List.count_cons, Nat.add_comm]

/-! ## Claim theorems -/

/-- C1: for every message, the Sending step clears the input surface, issues
exactly one direct text-input action carrying the first line, then for each
of the remaining `n-1` lines a Shift+Enter soft-newline keystroke sequence
followed by that line's text, in the original line order (the typed texts
are exactly the split lines and there are `n-1` soft newlines), and finally
activates the send control; in particular for `"Hello\nWorld"` the sequence
is input("Hello"), soft-newline, input("World"), submit. -/
theorem C1_sending_line_protocol :
    (∀ message : String,
      typed_lines (send_message_actions message) = pySplitNl message
        ∧ count_soft_newlines (send_message_actions message)
            = (pySplitNl message).length - 1
        ∧ send_message_actions message =
            [SendAct.clearInput, SendAct.typeText ((pySplitNl message).headD "")]
              ++ (pySplitNl message).tail.flatMap
                   (fun line => softNewlineSeq ++ [SendAct.typeText line])
              ++ [SendAct.clickSendButton])
      ∧ send_message_actions "Hello\nWorld" =
          [SendAct.clearInput, SendAct.typeText "Hello"] ++ softNewlineSeq
            ++ [SendAct.typeText "World", SendAct.clickSendButton] := by
  constructor
  · intro message
    have hne : pySplitNl message ≠ [] := pySplitNl_ne_nil message
    refine ⟨?_, ?_, rfl⟩
    · simp only [send_message_actions]
      rw [typed_lines_append, typed_lines_append, typed_lines_soft_flatMap]
      simp only [typed_lines, List.filterMap]
      simpa using headD_cons_tail _ hne
    · simp only [send_message_actions, count_soft_newlines]
      rw [List.count_append, List.count_append, count_pressEnter_soft_flatMap]
      simp [List.count_cons, List.length_tail]
  · decide

/-- C2 (counterexample): in `xenv_counterexample` the copy-affordance +
system-clipboard strategy would yield the non-empty text "CLIP_TEXT", yet
`get_response_from_spark` returns the direct-DOM text "DOM_TEXT" and never
invokes the clipboard strategy — refuting both that the cascade starts with
the copy-affordance + system-clipboard strategy and that its non-empty
result is used. -/
theorem C2_counterexample :
    xenv_counterexample.system_clipboard = some "CLIP_TEXT"
      ∧ "CLIP_TEXT" ≠ ""
      ∧ get_response_from_spark xenv_counterexample
          = (some "DOM_TEXT", [XStrategy.domDirect])
      ∧ (some "DOM_TEXT" : Option String) ≠ some "CLIP_TEXT"
      ∧ XStrategy.copySystemClipboard ∉ (get_response_from_spark xenv_counterexample).2 := by
  decide

/-- C2 (amended): the Extracting phase of `get_response_from_spark` attempts
its strategies in the fixed order (1) direct DOM extraction, (2)
copy-affordance + system clipboard, (3) copy-affordance + in-page clipboard
script (which always raises, since the method is absent), (4) JavaScript DOM
extraction, (5) last-resort raw text — every attempt trace is a subsequence
of that order — and the first strategy returning non-empty text wins: when
direct DOM extraction yields non-empty text no other strategy is invoked,
and when it yields nothing a non-empty system-clipboard read is returned
with no later strategy invoked. -/
theorem C2_amended_cascade :
    (∀ env : ExtractEnv,
      (get_response_from_spark env).2.Sublist
        [XStrategy.domDirect, XStrategy.copySystemClipboard,
         XStrategy.copyInPageScript, XStrategy.jsDomExtraction,
         XStrategy.rawLastResort])
      ∧ (∀ (env : ExtractEnv) (t : String),
          env.driver_ok = true → env.logged_in = true →
          strat_yield env.dom_content_text = some t →
          get_response_from_spark env = (some t, [XStrategy.domDirect]))
      ∧ (∀ (env : ExtractEnv) (t : String),
          env.driver_ok = true → env.logged_in = true →
          strat_yield env.dom_content_text = none →
          env.initial_copy_lookup_ok = true → env.copy_lookup_ok = true →
          env.has_copy_button = true → env.click_ok = true →
          strat_yield env.system_clipboard = some t →
          get_response_from_spark env =
            (some t, [XStrategy.domDirect, XStrategy.copySystemClipboard])) := by
  refine ⟨?_, ?_, ?_⟩
  · intro env
    unfold get_response_from_spark js_dom_step last_resort_step
    repeat' split
    all_goals simp only [List.cons_append, List.nil_append, List.append_assoc]
    all_goals decide
  · intro env t hd hl hy
    unfold get_response_from_spark
    rw [if_neg (by simp [hd]), if_neg (by simp [hl]), hy]
  · intro env t hd hl hy hil hcl hhb hck hsc
    unfold get_response_from_spark
    rw [if_neg (by simp [hd]), if_neg (by simp [hl]), hy,
      if_neg (by simp [hil]), if_neg (by simp [hcl]), if_neg (by simp [hhb]),
      if_neg (by simp [hck]), hsc]

/-- C2 (witness): the amended cascade theorem applied at a concrete
environment whose DOM text is non-empty. -/
theorem C2_amended_cascade_witness :
    strat_yield xenv_counterexample.dom_content_text = some "DOM_TEXT"
      ∧ get_response_from_spark xenv_counterexample
          = (some "DOM_TEXT", [XStrategy.domDirect]) :=
  ⟨by decide, C2_amended_cascade.2.1 xenv_counterexample "DOM_TEXT" rfl rfl (by decide)⟩

theorem strat_yield_ne_empty {o : Option String} {t : String}
    (h : strat_yield o = some t) : t ≠ "" := by
  cases o with
  | none => simp [strat_yield] at h
  | some s =>
    by_cases hs : s = ""
    · simp [strat_yield, hs] at h
    · simp [strat_yield, hs] at h
      exact h ▸ hs

/-- C3: the response-retrieval operation never returns the empty string as a
success value, the extraction-failure response is itself non-empty (so it is
distinguishable from a legitimate empty answer), and whenever every
extraction strategy comes back empty the result is exactly that explicit
extraction-failure response. -/
theorem C3_extraction_failure :
    (∀ env : ExtractEnv, (get_response_from_spark env).1 ≠ some "")
      ∧ extraction_failure_message ≠ ""
      ∧ (∀ env : ExtractEnv,
          env.driver_ok = true → env.logged_in = true →
          all_strategies_empty env = true →
          (get_response_from_spark env).1 = some extraction_failure_message) := by
  refine ⟨?_, by decide, ?_⟩
  · intro env
    unfold get_response_from_spark js_dom_step last_resort_step
    repeat' split
    all_goals first
      | decide
      | (rename_i heq
         have hne := strat_yield_ne_empty heq
         simpa using hne)
  · intro env hd hl he
    unfold all_strategies_empty at he
    rw [Bool.and_eq_true, Bool.and_eq_true, Bool.and_eq_true] at he
    obtain ⟨⟨⟨e1, e2⟩, e3⟩, e4⟩ := he
    have h1 := Option.isNone_iff_eq_none.mp e1
    have h2 := Option.isNone_iff_eq_none.mp e2
    have h3 := Option.isNone_iff_eq_none.mp e3
    have h4 := Option.isNone_iff_eq_none.mp e4
    simp only [get_response_from_spark, js_dom_step, last_resort_step,
      hd, hl, h1, h2, h3, h4]
    split_ifs <;> first | rfl | assumption

/-- C3 (witness): the theorem applied at the concrete all-empty
environment. -/
theorem C3_extraction_failure_witness :
    all_strategies_empty xenv_all_empty = true
      ∧ (get_response_from_spark xenv_all_empty).1 = some extraction_failure_message :=
  ⟨by decide, C3_extraction_failure.2.2 xenv_all_empty rfl rfl (by decide)⟩

theorem lookupDriver_removeDriver (l : List (String × Handle)) (bid : String) :
    lookupDriver (removeDriver l bid) bid = none := by
  induction l with
  | nil => rfl
  | cons kv rest ih =>
    obtain ⟨k, h⟩ := kv
    by_cases hk : k = bid
    · simp [removeDriver, hk, ih]
    · simp [removeDriver, lookupDriver, hk, ih]

theorem lookupDriver_mem {l : List (String × Handle)} {bid : String} {h : Handle}
    (hx : lookupDriver l bid = some h) : (bid, h) ∈ l := by
  induction l with
  | nil => simp [lookupDriver] at hx
  | cons kv rest ih =>
    obtain ⟨k, v⟩ := kv
    by_cases hk : k = bid
    · subst hk
      simp [lookupDriver] at hx
      simp [hx]
    · simp [lookupDriver, hk] at hx
      exact List.mem_cons_of_mem _ (ih hx)

theorem not_mem_removeDriver (l : List (String × Handle)) (bid : String) (x : Handle) :
    (bid, x) ∉ removeDriver l bid := by
  induction l with
  | nil => simp [removeDriver]
  | cons kv rest ih =>
    obtain ⟨k, v⟩ := kv
    by_cases hk : k = bid
    · simpa [removeDriver, hk] using ih
    · rw [removeDriver, if_neg hk]
      intro hmem
      rcases List.mem_cons.mp hmem with heq | hmem2
      · cases heq
        exact hk rfl
      · exact ih hmem2

/-- C4: acquiring a session id whose handle has become unresponsive removes
the dead entry and returns a newly constructed, responsive handle — carrying
the fresh serial number, hence a different object from the dead one —
registered under the same id. -/
theorem C4_self_healing :
    ∀ (p : Pool) (bid : String) (h : Handle) (env : ChromeEnv),
      Pool.wf p →
      lookupDriver p.drivers bid = some h → h.alive = false →
      (env.attach_ok = true ∨ (env.launch_attempts.take 3).any id = true) →
      ∃ h2 p2,
        get_driver p bid true false env = Except.ok (h2, p2)
          ∧ h2.hid = p.next_handle_id
          ∧ h2.alive = true
          ∧ h2 ≠ h
          ∧ h2.hid ≠ h.hid
          ∧ lookupDriver p2.drivers bid = some h2
          ∧ (bid, h) ∉ p2.drivers := by
  intro p bid h env hwf hl hd hsucc
  have hlt : h.hid < p.next_handle_id := hwf (bid, h) (lookupDriver_mem hl)
  have hmain :
      get_driver p bid true false env =
        Except.ok (allocDriver { p with drivers := removeDriver p.drivers bid } bid) := by
    unfold get_driver
    rw [hl]
    dsimp only
    rw [if_neg (by simp [hd])]
    unfold setup_chrome
    rw [lookupDriver_removeDriver]
    dsimp only
    rcases hsucc with hA | hL
    · simp [hA]
    · by_cases hA : env.attach_ok = true
      · simp [hA]
      · simp [hA, hL]
  refine ⟨_, _, hmain, rfl, rfl, ?_, ?_, ?_, ?_⟩
  · intro he
    rw [← he] at hd
    simp [allocDriver] at hd
  · intro he
    simp only [allocDriver] at he
    omega
  · simp [allocDriver, lookupDriver]
  · intro hmem
    simp only [allocDriver] at hmem
    rcases List.mem_cons.mp hmem with heq | hmem2
    · have : h.alive = true := by
        cases heq
        rfl
      rw [hd] at this
      exact Bool.false_ne_true this
    · exact not_mem_removeDriver _ _ _ hmem2

/-- C4 (witness): the self-healing theorem applied to a one-entry pool whose
handle is dead. -/
theorem C4_self_healing_witness :
    Pool.wf pool_dead_witness
      ∧ lookupDriver pool_dead_witness.drivers "spark-ai-chat"
          = some { hid := 0, alive := false }
      ∧ ∃ h2 p2,
          get_driver pool_dead_witness "spark-ai-chat" true false chrome_env_attach
              = Except.ok (h2, p2)
            ∧ h2.hid = pool_dead_witness.next_handle_id
            ∧ h2.alive = true
            ∧ h2 ≠ { hid := 0, alive := false }
            ∧ h2.hid ≠ ({ hid := 0, alive := false } : Handle).hid
            ∧ lookupDriver p2.drivers "spark-ai-chat" = some h2
            ∧ ("spark-ai-chat", ({ hid := 0, alive := false } : Handle)) ∉ p2.drivers :=
  ⟨by decide, by decide,
   C4_self_healing pool_dead_witness "spark-ai-chat" { hid := 0, alive := false }
     chrome_env_attach (by decide) (by decide) rfl (Or.inl rfl)⟩

/-- C5: acquiring an id that maps to a live handle with forceNew disabled
returns that very handle and leaves the pool unchanged, so two acquires in a
row return the identical handle both times. -/
theorem C5_acquire_idempotent :
    ∀ (p : Pool) (bid : String) (h : Handle) (env env2 : ChromeEnv) (remote : Bool),
      lookupDriver p.drivers bid = some h → h.alive = true →
      get_driver p bid remote false env = Except.ok (h, p)
        ∧ get_driver p bid remote false env2 = Except.ok (h, p) := by
  intro p bid h env env2 remote hl ha
  constructor <;> (unfold get_driver; rw [hl]; simp [ha])

/-- C5 (witness): the idempotence theorem applied to a one-entry pool with a
live handle. -/
theorem C5_acquire_idempotent_witness :
    lookupDriver pool_live_witness.drivers "spark-ai-chat"
        = some { hid := 0, alive := true }
      ∧ get_driver pool_live_witness "spark-ai-chat" true false chrome_env_attach
          = Except.ok ({ hid := 0, alive := true }, pool_live_witness) :=
  ⟨by decide,
   (C5_acquire_idempotent pool_live_witness "spark-ai-chat" { hid := 0, alive := true }
      chrome_env_attach chrome_env_attach true (by decide) rfl).1⟩

/-- C6: every cookie that `load_cookies` adds to the browser session has a
domain field, and is not a `sameSite="None"` cookie whose secure flag is
absent or false — equivalently, cookies failing either filter are dropped
and never added. -/
theorem C6_cookie_filters :
    ∀ (cookies : List Cookie) (url : String) (add_ok : Cookie → Bool) (c : Cookie),
      c ∈ added_cookies cookies url add_ok →
        c.domain ≠ none
          ∧ ¬(c.sameSite = some "None" ∧ c.secure.getD false = false) := by
  intro cookies url add_ok c hc
  unfold added_cookies at hc
  rw [List.mem_filter] at hc
  obtain ⟨-, hp⟩ := hc
  cases hdom : c.domain with
  | none =>
    rw [hdom] at hp
    simp at hp
  | some d =>
    refine ⟨by simp [hdom], ?_⟩
    intro hbad
    rw [hdom] at hp
    dsimp only at hp
    rw [if_pos hbad] at hp
    exact Bool.false_ne_true hp

/-- C6 (witness): the filtering theorem applied to a concrete loaded cookie
that passes both filters and is added. -/
theorem C6_cookie_filters_witness :
    cookie_witness ∈
        added_cookies [cookie_witness] "https://spark.unimelb.edu.au/securechat"
          (fun _ => true)
      ∧ cookie_witness.domain ≠ none
      ∧ ¬(cookie_witness.sameSite = some "None"
            ∧ cookie_witness.secure.getD false = false) :=
  ⟨by decide,
   C6_cookie_filters [cookie_witness] "https://spark.unimelb.edu.au/securechat"
     (fun _ => true) cookie_witness (by decide)⟩

/-- C7: the fallback extractor of src/sparkai/SparkAI.py always returns a
string beginning with "Error retrieving response: " — the guard name
`not_copied` is not among the local names the function ever assigns, so its
lookup raises `NameError`, the surrounding handler catches it, and when
everything before the loop succeeds the result is exactly the NameError
string; the clipboard-reading branch is unreachable and the clipboard
content never influences the result. -/
theorem C7_fallback_always_errors :
    (∀ env : FallbackEnv,
        ∃ e, get_llm_response_from_copy_button env
          = "Error retrieving response: " ++ e)
      ∧ "not_copied" ∉ fallback_assigned_names
      ∧ (∀ env : FallbackEnv, env.driver_ok = true →
          get_llm_response_from_copy_button env
            = "Error retrieving response: " ++ name_error_msg)
      ∧ (∀ (env : FallbackEnv) (x y : String),
          get_llm_response_from_copy_button { env with clipboard_text := x }
            = get_llm_response_from_copy_button { env with clipboard_text := y }) := by
  refine ⟨?_, by decide, ?_, ?_⟩
  · intro env
    unfold get_llm_response_from_copy_button fallback_try_body
    by_cases hd : env.driver_ok = false
    · rw [if_pos hd]
      exact ⟨env.err_msg, rfl⟩
    · rw [if_neg hd, if_neg (by decide)]
      exact ⟨name_error_msg, rfl⟩
  · intro env hd
    unfold get_llm_response_from_copy_button fallback_try_body
    rw [if_neg (by simp [hd]), if_neg (by decide)]
  · intro env x y
    unfold get_llm_response_from_copy_button fallback_try_body
    dsimp only
    by_cases hd : env.driver_ok = false
    · rw [if_pos hd, if_pos hd]
    · rw [if_neg hd, if_neg hd, if_neg (by decide), if_neg (by decide)]

/-- C7 (witness): the theorem applied at a concrete environment where every
driver interaction succeeds. -/
theorem C7_fallback_always_errors_witness :
    fallback_env_witness.driver_ok = true
      ∧ get_llm_response_from_copy_button fallback_env_witness
          = "Error retrieving response: " ++ name_error_msg :=
  ⟨rfl, C7_fallback_always_errors.2.2.1 fallback_env_witness rfl⟩

theorem log_output_append (d : Bool) (a b : List AuthEvent) :
    log_output d (a ++ b) = log_output d a ++ log_output d b := by
  induction a with
  | nil => simp [log_output]
  | cons e rest ih => cases e <;> cases d <;> simp [log_output, ih]

theorem generic_attempt_logs (env : AuthEnv) (u p p2 : String) (d : Bool) :
    log_output d (generic_attempt env u p)
      = log_output d (generic_attempt env u p2) := by
  unfold generic_attempt
  cases env.generic_user_found <;> cases env.generic_pass_found <;>
    cases env.generic_button_found <;>
      simp [log_output_append, log_output]

theorem login_inner_logs (env : AuthEnv) (u p p2 : String) (d : Bool) :
    (login_to_spark_inner env u p).1 = (login_to_spark_inner env u p2).1
      ∧ log_output d (login_to_spark_inner env u p).2
          = log_output d (login_to_spark_inner env u p2).2 := by
  unfold login_to_spark_inner
  by_cases hn : env.navigate_ok = false
  · simp [hn]
  · by_cases ha : env.already_logged_in = true
    · simp [hn, ha]
    · by_cases h0 : env.std_stage = 0
      · by_cases hf : env.final_prompt = true <;>
          simp [hn, ha, h0, hf, log_output_append, log_output,
            generic_attempt_logs env u p p2 d]
      · by_cases h1 : env.std_stage = 1
        · by_cases hf : env.final_prompt = true <;>
            simp [hn, ha, h0, h1, hf, log_output_append, log_output,
              generic_attempt_logs env u p p2 d]
        · by_cases hf : env.final_prompt = true <;>
            simp [hn, ha, h0, h1, hf, log_output_append, log_output]

theorem failure_handler_logs (env : AuthEnv) (e : String) (tr tr2 : List AuthEvent)
    (d : Bool) (h : log_output d tr = log_output d tr2) :
    (login_failure_handler env e tr).1 = (login_failure_handler env e tr2).1
      ∧ log_output d (login_failure_handler env e tr).2
          = log_output d (login_failure_handler env e tr2).2 := by
  unfold login_failure_handler
  split_ifs <;> simp [log_output_append, log_output, h]

theorem login_logs (env : AuthEnv) (u p p2 : String) (d : Bool) :
    (login_to_spark env u p).1 = (login_to_spark env u p2).1
      ∧ log_output d (login_to_spark env u p).2
          = log_output d (login_to_spark env u p2).2 := by
  have h := login_inner_logs env u p p2 d
  unfold login_to_spark
  rcases hi : login_to_spark_inner env u p with ⟨r1, tr1⟩
  rcases hi2 : login_to_spark_inner env u p2 with ⟨r2, tr2⟩
  rw [hi, hi2] at h
  obtain ⟨he, ht⟩ := h
  simp only at he ht
  cases r1 with
  | ok b =>
    cases r2 with
    | ok b2 =>
      cases he
      exact ⟨rfl, ht⟩
    | error e2 => simp at he
  | error e =>
    cases r2 with
    | ok b2 => simp at he
    | error e2 =>
      cases he
      exact failure_handler_logs env e tr1 tr2 d ht

/-- C8 (counterexample): with debug logging enabled, the login flow emits the
log line "Performing login with username=..." containing the username
verbatim (`ChromeManager.login_to_spark`, line 468) — so credentials are not
kept out of the log output. -/
theorem C8_counterexample :
    "[DEBUG]: Performing login with username=spark-user"
        ∈ log_output true (chrome_login_to_spark auth_env_happy "spark-user" "hunter2").2
      ∧ pyContains "[DEBUG]: Performing login with username=spark-user" "spark-user"
          = true := by
  decide

/-- C8 (amended): the password never reaches the log output — the observable
log output of the login flow is identical for any two passwords — and the
cookie file written by `save_cookies` after login contains exactly the
browser cookies, independent of both credential values; the username,
however, does appear in debug log output (see the counterexample). -/
theorem C8_amended_credentials :
    ∀ (env : AuthEnv) (debug : Bool) (u u2 p p2 : String) (cs : List Cookie),
      log_output debug (chrome_login_to_spark env u p).2
          = log_output debug (chrome_login_to_spark env u p2).2
        ∧ (login_then_save_cookie_file env u p cs).2 = cs
        ∧ (login_then_save_cookie_file env u p cs).2
            = (login_then_save_cookie_file env u2 p2 cs).2 := by
  intro env d u u2 p p2 cs
  refine ⟨?_, rfl, rfl⟩
  unfold chrome_login_to_spark
  have h := login_logs env u p p2 d
  simp only [List.append_eq, List.nil_append, log_output_append, log_output,
    h.1, h.2]

/-- C9: whenever the pre-send URL check runs and the current URL indicates a
login/SSO surface, a re-authentication step (automatic re-login, or the
manual-login prompt when no credentials are stored) occurs in the trace
before any message text is typed; and in general a message is typed only
when the login-state check passed or the chat-surface prompt element was
found — never while the session sits on a surface lacking the chat
markers. -/
theorem C9_reauth_before_send :
    ∀ (env : SendEnv) (msg : String),
      (env.url_read_ok = true → needs_reauth env.current_url = true →
        ∃ l1 l2, (send_message env msg).2 = l1 ++ l2
          ∧ (SendEvent.reauth ∈ l1 ∨ SendEvent.manualLoginPrompt ∈ l1)
          ∧ ∀ m, SendEvent.typeMessage m ∉ l1)
        ∧ (∀ m, SendEvent.typeMessage m ∈ (send_message env msg).2 →
            env.logged_in_check = true ∨ env.prompt_box_found = true) := by
  intro env msg
  constructor
  · intro hu hr
    by_cases hok : (send_message_to_spark_part env msg).1 = true
    · refine ⟨[SendEvent.urlChecked env.current_url,
               SendEvent.navigate (spark_chat_url env.chat_id)]
                ++ (if env.have_credentials = true then [SendEvent.reauth]
                    else [SendEvent.manualLoginPrompt]),
              (send_message_to_spark_part env msg).2, ?_, ?_, ?_⟩
      · simp [send_message, hu, hr, hok]
      · by_cases hc : env.have_credentials = true <;> simp [hc]
      · intro m
        by_cases hc : env.have_credentials = true <;> simp [hc]
    · refine ⟨[SendEvent.urlChecked env.current_url,
               SendEvent.navigate (spark_chat_url env.chat_id)]
                ++ (if env.have_credentials = true then [SendEvent.reauth]
                    else [SendEvent.manualLoginPrompt]),
              (send_message_to_spark_part env msg).2 ++ fallback_send env msg,
              ?_, ?_, ?_⟩
      · simp [send_message, hu, hr, hok]
      · by_cases hc : env.have_credentials = true <;> simp [hc]
      · intro m
        by_cases hc : env.have_credentials = true <;> simp [hc]
  · intro m hm
    by_cases hl : env.logged_in_check = true
    · exact Or.inl hl
    · by_cases hp : env.prompt_box_found = true
      · exact Or.inr hp
      · exfalso
        by_cases hu : env.url_read_ok = true
        · by_cases hr : needs_reauth env.current_url = true
          · by_cases hc : env.have_credentials = true <;>
              by_cases he : env.env_credentials = true <;>
                simp [send_message, send_message_to_spark_part, fallback_send,
                  hl, hp, hu, hr, hc, he] at hm
          · by_cases he : env.env_credentials = true <;>
              simp [send_message, send_message_to_spark_part, fallback_send,
                hl, hp, hu, hr, he] at hm
        · by_cases he : env.env_credentials = true <;>
            simp [send_message, send_message_to_spark_part, fallback_send,
              hl, hp, hu, he] at hm

/-- C9 (witness): the theorem applied at a concrete environment sitting on
an SSO login URL. -/
theorem C9_reauth_before_send_witness :
    needs_reauth send_env_witness.current_url = true
      ∧ (∃ l1 l2, (send_message send_env_witness "Hello").2 = l1 ++ l2
          ∧ (SendEvent.reauth ∈ l1 ∨ SendEvent.manualLoginPrompt ∈ l1)
          ∧ ∀ m, SendEvent.typeMessage m ∉ l1) :=
  ⟨by decide,
   (C9_reauth_before_send send_env_witness "Hello").1 rfl (by decide)⟩

/-- C10 (counterexample): an execution of `auth_utils.login_to_spark` in
which the login form never appears and the chat interface never loads
returns the failure boolean without ever prompting for manual intervention —
the flow does not always degrade to a manual-intervention prompt before
reporting failure. -/
theorem C10_counterexample :
    (login_to_spark auth_env_fail "spark-user" "pw-zero").1 = false
      ∧ (login_to_spark auth_env_fail "spark-user" "pw-zero").2.any isPromptManual
          = false := by
  decide

/-- C10 (amended): the login flows catch their DOM-lookup exceptions and
report failure as a boolean; in main.py, `SparkAI._auto_login` always blocks
on a manual-intervention prompt before returning failure, but
`auth_utils.login_to_spark` can return failure without such a prompt (see
the counterexample). -/
theorem C10_amended_manual_prompt :
    ∀ (env : MainAuthEnv) (u p : String),
      (auto_login env u p).1 = false →
      (auto_login env u p).2.any isPromptManual = true := by
  intro env u p
  rcases hi : auto_login_inner env u p with ⟨r, tr⟩
  cases r with
  | ok b =>
    have hb : b = true := by
      unfold auto_login_inner at hi
      split_ifs at hi <;> simp_all
    subst hb
    unfold auto_login
    rw [hi]
    intro hf
    simp at hf
  | error e =>
    unfold auto_login
    rw [hi]
    intro hf
    simp [isPromptManual]

/-- C10 (witness): the amended theorem applied at a concrete failing
environment of main.py `SparkAI._auto_login`. -/
theorem C10_amended_manual_prompt_witness :
    (auto_login main_auth_env_fail "spark-user" "pw-zero").1 = false
      ∧ (auto_login main_auth_env_fail "spark-user" "pw-zero").2.any isPromptManual
          = true :=
  ⟨by decide,
   C10_amended_manual_prompt main_auth_env_fail "spark-user" "pw-zero" (by decide)⟩

end Spark
